import Mathlib

/-!
Verification of the KASA USSD menu state machine (src/main.py) as a shallow
embedding.  The mutable module-level dictionaries (`ussd_session_manager.sessions`,
`users_db`, `emergency_reports`) become an explicit `KasaState` record threaded
through the handler; `datetime.now().isoformat()` becomes an explicit `now`
argument; the Africa s Talking SMS gateway (an external collaborator) becomes a
boolean `smsOk` argument saying whether `sms.send` succeeds or raises; fallible
code is modelled with `Except`.  Strings of the source are transcribed verbatim.
-/

/-! ## Python dict and string primitives

Python dicts preserve insertion order: assignment to an existing key replaces
the value in place, assignment to a fresh key appends at the end, `del` removes
the entry.  We model a dict as an association list with these operations.
-/

/-- Python `d.get(k)` / `d[k]` lookup on an insertion-ordered dict. -/
def dGet? (d : List (String × α)) (k : String) : Option α :=
  (d.find? (fun p => p.1 == k)).map (·.2)

/-- Python `d[k] = v`: replace in place if the key exists, else append. -/
def dSet : List (String × α) → String → α → List (String × α)
  | [], k, v => [(k, v)]
  | p :: rest, k, v => if p.1 == k then (k, v) :: rest else p :: dSet rest k v

/-- Python `del d[k]` (a no-op when the key is absent, matching
`clear_session`, which first tests membership). -/
def dDel (d : List (String × α)) (k : String) : List (String × α) :=
  d.filter (fun p => p.1 != k)

/-- Characters stripped by Python `str.strip()` with no argument. -/
def isPyWS (c : Char) : Bool :=
  c == ' ' || c == '\t' || c == '\n' || c == '\r' || c.val == 11 || c.val == 12

/-- Python `str.strip()`: drop leading and trailing whitespace. -/
def pyStrip (s : String) : String :=
  ⟨((s.data.dropWhile isPyWS).reverse.dropWhile isPyWS).reverse⟩

/-- Python `s[:n]`: the first `n` characters. -/
def pySlice (s : String) (n : Nat) : String := ⟨s.data.take n⟩

/-- Python `str.lower()` (the location strings in play are ASCII). -/
def pyLower (s : String) : String := ⟨s.data.map Char.toLower⟩

/-- Auxiliary for `pySplit`: split a character list at each separator. -/
def splitCharAux (sep : Char) : List Char → String → List String
  | [], acc => [acc]
  | c :: cs, acc =>
    if c == sep then acc :: splitCharAux sep cs "" else splitCharAux sep cs (acc.push c)

/-- Python `s.split(sep)` for a one-character separator. -/
def pySplit (s : String) (sep : Char) : List String := splitCharAux sep s.data ""

/-- Decides whether `p` is an initial run of `s` (character lists). -/
def listLead : List Char → List Char → Bool
  | [], _ => true
  | _ :: _, [] => false
  | a :: as, b :: bs => a == b && listLead as bs

/-- Decides whether `pat` occurs as a contiguous run inside `l`. -/
def listContains (pat : List Char) : List Char → Bool
  | [] => listLead pat []
  | c :: cs => listLead pat (c :: cs) || listContains pat cs

/-- Python `pat in s` substring test. -/
def strContainsSub (s pat : String) : Bool := listContains pat.data s.data

/-- Python `" | ".join(parts)`. -/
def joinSep (sep : String) : List String → String
  | [] => ""
  | [x] => x
  | x :: y :: xs => x ++ sep ++ joinSep sep (y :: xs)

/-- The string `s` begins with exactly the characters of `p`. -/
def strBegins (p s : String) : Prop := ∃ t, s = p ++ t

/-! ## Data model (src/main.py, pydantic models and session dictionaries) -/

/-- `User` (src/main.py:89): a registry record.  `registration_date` is filled
with `datetime.now().isoformat()` by the constructor; we carry it explicitly. -/
structure User where
  phone_number : String
  name : String
  location : String
  registration_date : String
deriving DecidableEq, Repr

/-- `LocationInfo` (src/main.py:80).  The float coordinates only ever flow into
formatted SMS text, so we carry them as their decimal literals; `none` is
Python `None`. -/
structure LocationInfo where
  latitude : Option String
  longitude : Option String
  address : Option String
  landmark : Option String
  cell_tower_id : Option String
  network_provider : Option String
deriving DecidableEq, Repr

/-- `EmergencyReport` (src/main.py:101). -/
structure EmergencyReport where
  session_id : String
  phone_number : String
  emergency_type : String
  timestamp : String
  location : LocationInfo
  reference_id : String
  status : String
deriving DecidableEq, Repr

/-- The string keys the code ever stores in a session dict
(`flow`, `step`, `phone`, `name`, `location`). -/
inductive SessKey
  | flow | step | phone | name | location
deriving DecidableEq, Repr

/-- A USSD session dict: the key-value bag stored per session id.  A missing
key is `none`, matching `dict.get` returning `None`. -/
structure SessDict where
  flow : Option String := none
  step : Option String := none
  phone : Option String := none
  name : Option String := none
  location : Option String := none
deriving DecidableEq, Repr

/-- Python `session_dict[key] = value`. -/
def SessDict.set (d : SessDict) : SessKey → String → SessDict
  | .flow, v => { d with flow := some v }
  | .step, v => { d with step := some v }
  | .phone, v => { d with phone := some v }
  | .name, v => { d with name := some v }
  | .location, v => { d with location := some v }

/-- Python `f-string` rendering of a possibly-`None` value. -/
def fmtOpt : Option String → String
  | some s => s
  | none => "None"

/-- The three module-level mutable stores of src/main.py:
`ussd_session_manager.sessions`, `users_db` and `emergency_reports`. -/
structure KasaState where
  sessions : List (String × SessDict)
  users_db : List (String × User)
  emergency_reports : List (String × EmergencyReport)
deriving DecidableEq, Repr

/-- `USSDSessionState.update_session` (src/main.py:130): create the entry if
missing, then set one key. -/
def update_session (sessions : List (String × SessDict)) (session_id : String)
    (key : SessKey) (value : String) : List (String × SessDict) :=
  dSet sessions session_id (((dGet? sessions session_id).getD {}).set key value)

/-! ## Menu screens (`USSDSession` helper class, src/main.py:137) -/

namespace USSDSession

def get_main_menu : String :=
  "CON Welcome to KASA - Local Alert System\n1. Send Emergency Alert\n2. Register User\n3. View System Status\n4. Help\n0. Exit"

def get_emergency_menu : String :=
  "CON Select Emergency Type:\n1. Fire Emergency\n2. Medical Emergency\n3. Security Alert\n4. Natural Disaster\n0. Back to Main Menu"

def get_confirmation_menu (alert_type : String) : String :=
  "CON Confirm sending " ++ alert_type ++ "?\n1. Yes, Send Alert\n2. No, Cancel\n0. Main Menu"

def get_help_menu : String :=
  "CON KASA Help:\n- Dial this code to send alerts\n- Alerts are sent to registered contacts\n- For emergencies, call 999\n0. Back to Main Menu"

def get_registration_name_prompt : String :=
  "CON Enter your full name:"

def get_registration_location_prompt (name : String) : String :=
  "CON Hello " ++ name ++ "!\nEnter your location/area:"

def get_registration_confirmation (name location : String) : String :=
  "CON Confirm registration:\nName: " ++ name ++ "\nLocation: " ++ location ++ "\n1. Confirm\n2. Cancel\n0. Main Menu"

end USSDSession

/-! ## Helper functions (src/main.py:192-337) -/

/-- `get_location_from_phone` (src/main.py:192): a hard-coded prefix table
checked in insertion order, with a default fallback. -/
def get_location_from_phone (phone_number : String) : LocationInfo :=
  if listLead "+254711".data phone_number.data then
    ⟨some "-1.2921", some "36.8219", some "Nairobi Central Business District",
     some "Near Kenyatta Avenue", some "NRB_001", some "Safaricom"⟩
  else if listLead "+254712".data phone_number.data then
    ⟨some "-1.3032", some "36.7073", some "Westlands, Nairobi",
     some "Near Sarit Centre", some "WLD_002", some "Safaricom"⟩
  else if listLead "+254720".data phone_number.data then
    ⟨some "-1.2833", some "36.8167", some "Kilimani, Nairobi",
     some "Near Yaya Centre", some "KLM_003", some "Airtel"⟩
  else
    ⟨none, none, some "Location being determined via cell tower triangulation",
     some "Emergency services dispatched", none, some "Detecting..."⟩

/-- `format_location_for_sms` (src/main.py:241).  The truthiness tests
(`if location.address:` etc.) are presence tests here: every stored value is a
non-empty, non-zero literal. -/
def format_location_for_sms (location : LocationInfo) : String :=
  let parts : List String :=
    (match location.address with
      | some a => ["📍" ++ a]
      | none => []) ++
    (match location.landmark with
      | some l => ["🏢" ++ l]
      | none => []) ++
    (match location.latitude, location.longitude with
      | some la, some lo => ["GPS:" ++ la ++ "," ++ lo]
      | _, _ => [])
  if parts = [] then "Location: Being determined" else joinSep " | " parts

/-- `get_users_by_location` (src/main.py:254): every user whose location equals
the argument case-insensitively, in registry insertion order. -/
def get_users_by_location (location : String) (users_db : List (String × User)) :
    List User :=
  (users_db.filter (fun p => pyLower p.2.location == pyLower location)).map (·.2)

/-- The result dict of `send_alert_to_location`; the handler reads only
`status` and `sent_count`. -/
structure AlertResult where
  status : String
  message : String
  sent_count : Nat
  recipients : List String
deriving DecidableEq, Repr

/-- `send_alert_to_location` (src/main.py:267).  `smsOk` models whether the
`sms.send` call to the external gateway succeeds or raises; the raised
exception text is not observable downstream, so the error `message` carries
just its fixed part. -/
def send_alert_to_location (location _message : String)
    (users_db : List (String × User)) (smsOk : Bool) : AlertResult :=
  let users_in_location := get_users_by_location location users_db
  if users_in_location = [] then
    { status := "warning"
      message := "No registered users found in " ++ location
      sent_count := 0
      recipients := [] }
  else
    let phone_numbers := users_in_location.map (·.phone_number)
    if smsOk then
      { status := "success"
        message := "Alert sent to " ++ toString phone_numbers.length ++ " users in " ++ location
        sent_count := phone_numbers.length
        recipients := phone_numbers }
    else
      { status := "error"
        message := "Failed to send alert to " ++ location
        sent_count := 0
        recipients := [] }

/-- `register_user` (src/main.py:319): build the record and assign it into
`users_db` unconditionally (dict assignment replaces an existing entry). -/
def register_user (phone_number name location now : String)
    (users_db : List (String × User)) : List (String × User) × User :=
  let user : User := ⟨phone_number, name, location, now⟩
  (dSet users_db phone_number user, user)

/-- `get_user_by_phone` (src/main.py:335). -/
def get_user_by_phone (phone_number : String) (users_db : List (String × User)) :
    Option User :=
  dGet? users_db phone_number

/-- `emergency_types` dict (src/main.py:707 and 728). -/
def emergency_types : String → Option String
  | "1" => some "Fire Emergency"
  | "2" => some "Medical Emergency"
  | "3" => some "Security Alert"
  | "4" => some "Natural Disaster"
  | _ => none

/-! ## Registration wizard (`handle_registration_flow`, src/main.py:801) -/

/-- The body of `handle_registration_flow` inside its `try`.  The one failure
point is the commit with a missing name or location: `register_user` then
builds `User(name=None, ...)` and pydantic raises a `ValidationError`, modelled
as `Except.error`.  Note the source reads the raw accumulated `text` as the
wizard answer; its `text_array` parameter is unused. -/
def handle_registration_flow_core (session_id phone_number text : String)
    (_text_array : List String) (session_data : SessDict) (now : String)
    (st : KasaState) : Except Unit (String × KasaState) :=
  let step := session_data.step
  if step = some "name" then
    if text ≠ "" ∧ pyStrip text ≠ "" then
      let name := pyStrip text
      let sessions1 := update_session st.sessions session_id .name name
      let sessions2 := update_session sessions1 session_id .step "location"
      .ok (USSDSession.get_registration_location_prompt name, { st with sessions := sessions2 })
    else
      .ok ("CON Please enter your full name:", st)
  else if step = some "location" then
    if text ≠ "" ∧ pyStrip text ≠ "" then
      let location := pyStrip text
      let name := session_data.name
      let sessions1 := update_session st.sessions session_id .location location
      let sessions2 := update_session sessions1 session_id .step "confirmation"
      .ok (USSDSession.get_registration_confirmation (fmtOpt name) location,
        { st with sessions := sessions2 })
    else
      .ok ("CON Please enter your location/area:", st)
  else if step = some "confirmation" then
    if text = "1" then
      match session_data.name, session_data.location with
      | some name, some location =>
        let regres := register_user phone_number name location now st.users_db
        .ok ("END Registration successful!\nName: " ++ name ++ "\nLocation: " ++ location
              ++ "\nPhone: " ++ phone_number ++ "\nYou can now receive location alerts!",
          { sessions := dDel st.sessions session_id
            users_db := regres.1
            emergency_reports := st.emergency_reports })
      | _, _ => .error ()
    else if text = "2" then
      .ok ("END Registration cancelled.", { st with sessions := dDel st.sessions session_id })
    else if text = "0" then
      .ok (USSDSession.get_main_menu, { st with sessions := dDel st.sessions session_id })
    else
      .ok (USSDSession.get_registration_confirmation (fmtOpt session_data.name)
            (fmtOpt session_data.location), st)
  else
    .ok ("END Registration error. Please try again.",
      { st with sessions := dDel st.sessions session_id })

/-- `handle_registration_flow` (src/main.py:801) with its `except` clause
(src/main.py:862): any exception degrades to a terminal error screen and the
session is force-cleared. -/
def handle_registration_flow (session_id phone_number text : String)
    (text_array : List String) (session_data : SessDict) (now : String)
    (st : KasaState) : String × KasaState :=
  match handle_registration_flow_core session_id phone_number text text_array
      session_data now st with
  | .ok r => r
  | .error _ =>
    ("END Registration error. Please try again later.",
      { st with sessions := dDel st.sessions session_id })

/-! ## USSD handler (`ussd_handler`, src/main.py:643) -/

/-- The body of `ussd_handler` inside its `try`.  In Python, branches of the
depth-2 and depth-3 `elif` chains that return nothing fall through to the
default clear-and-end response (src/main.py:791); those fall-throughs are made
explicit here. -/
def ussd_handler_core (sessionId _serviceCode phoneNumber text now : String)
    (smsOk : Bool) (st : KasaState) : Except Unit (String × KasaState) :=
  let session_data := (dGet? st.sessions sessionId).getD {}
  let text_array := if text = "" then [""] else pySplit text '*'
  if session_data.flow = some "registration" then
    .ok (handle_registration_flow sessionId phoneNumber text text_array session_data now st)
  else if text = "" ∨ text = "0" then
    .ok (USSDSession.get_main_menu, { st with sessions := dDel st.sessions sessionId })
  else
    match text_array with
    | [_] =>
      if text = "1" then
        .ok (USSDSession.get_emergency_menu, st)
      else if text = "2" then
        match get_user_by_phone phoneNumber st.users_db with
        | some existing_user =>
          .ok ("END You are already registered!\nName: " ++ existing_user.name
                ++ "\nLocation: " ++ existing_user.location
                ++ "\nRegistered: " ++ pySlice existing_user.registration_date 10, st)
        | none =>
          let sessions1 :=
            dSet st.sessions sessionId
              ⟨some "registration", some "name", some phoneNumber, none, none⟩
          .ok (USSDSession.get_registration_name_prompt, { st with sessions := sessions1 })
      else if text = "3" then
        .ok ("END KASA System Status:\n✓ SMS Service: Online\n✓ Alert System: Active\n✓ Registered Users: "
              ++ toString st.users_db.length
              ++ "\n✓ Last Updated: Now\nSystem is operational.", st)
      else if text = "4" then
        .ok (USSDSession.get_help_menu, st)
      else
        .ok ("END Invalid option. Please try again.", st)
    | [seg0, seg1] =>
      if seg0 = "1" then
        match emergency_types seg1 with
        | some alert_type => .ok (USSDSession.get_confirmation_menu alert_type, st)
        | none =>
          if seg1 = "0" then
            .ok (USSDSession.get_main_menu, st)
          else
            .ok ("END Invalid emergency type.", st)
      else if seg0 = "4" ∧ seg1 = "0" then
        .ok (USSDSession.get_main_menu, st)
      else
        .ok ("END Session ended. Dial again to restart.",
          { st with sessions := dDel st.sessions sessionId })
    | [seg0, seg1, seg2] =>
      if seg0 = "1" ∧ seg2 = "1" then
        match emergency_types seg1 with
        | some alert_type =>
          let user := get_user_by_phone phoneNumber st.users_db
          let location := get_location_from_phone phoneNumber
          let location_info := format_location_for_sms location
          let reference_id := "EMR-" ++ pySlice sessionId 8
          let report : EmergencyReport :=
            ⟨sessionId, phoneNumber, alert_type, now, location, reference_id, "pending"⟩
          let reports1 := dSet st.emergency_reports reference_id report
          let location_alert_result : Option AlertResult :=
            user.map (fun u =>
              send_alert_to_location u.location
                ("EMERGENCY ALERT: " ++ alert_type ++ " reported in " ++ u.location
                  ++ ". From: " ++ u.name ++ " (" ++ phoneNumber ++ "). Stay alert and safe!")
                st.users_db smsOk)
          let sessions1 := dDel st.sessions sessionId
          let response_msg := "END " ++ alert_type ++ " alert sent!\nReference: "
            ++ reference_id ++ "\nLocation: " ++ location_info
          let response_msg :=
            match location_alert_result with
            | some r =>
              if r.status = "success" then
                response_msg ++ "\n✓ " ++ toString r.sent_count ++ " local users notified"
              else response_msg
            | none => response_msg
          let response_msg := response_msg ++ "\nStay safe!"
          .ok (response_msg,
            { sessions := sessions1, users_db := st.users_db, emergency_reports := reports1 })
        | none =>
          .ok ("END Session ended. Dial again to restart.",
            { st with sessions := dDel st.sessions sessionId })
      else if seg0 = "1" ∧ seg2 = "2" then
        .ok ("END Alert cancelled. Stay safe!",
          { st with sessions := dDel st.sessions sessionId })
      else if seg0 = "1" ∧ seg2 = "0" then
        .ok (USSDSession.get_main_menu, st)
      else
        .ok ("END Session ended. Dial again to restart.",
          { st with sessions := dDel st.sessions sessionId })
    | _ =>
      .ok ("END Session ended. Dial again to restart.",
        { st with sessions := dDel st.sessions sessionId })

/-- `ussd_handler` (src/main.py:643) with its outer `except` (src/main.py:795):
any escaping exception degrades to a terminal system-error screen and the
session is force-cleared. -/
def ussd_handler (sessionId serviceCode phoneNumber text now : String)
    (smsOk : Bool) (st : KasaState) : String × KasaState :=
  match ussd_handler_core sessionId serviceCode phoneNumber text now smsOk st with
  | .ok r => r
  | .error _ =>
    ("END System error. Please try again later.",
      { st with sessions := dDel st.sessions sessionId })

/-! ## Specification predicates -/

/-- Well-formedness of a USSD response: it begins with exactly the four
characters of one of the two wire protocol markers. -/
def isMenuResponse (s : String) : Prop := strBegins "CON " s ∨ strBegins "END " s

/-- The only session-dict shape the code ever stores: an active registration
flow at one of its three wizard steps. -/
def sessOK (d : SessDict) : Prop :=
  d.flow = some "registration"
    ∧ (d.step = some "name" ∨ d.step = some "location" ∨ d.step = some "confirmation")

/-! ## Basic lemmas about the dict and string primitives -/

theorem dGet?_nil (k : String) : dGet? ([] : List (String × α)) k = none := rfl

theorem dGet?_cons (p : String × α) (d : List (String × α)) (k : String) :
    dGet? (p :: d) k = if p.1 == k then some p.2 else dGet? d k := by
  by_cases h : p.1 == k <;> simp [dGet?, List.find?_cons, h]

theorem dGet?_dSet_self (d : List (String × α)) (k : String) (v : α) :
    dGet? (dSet d k v) k = some v := by
  induction d with
  | nil => simp [dSet, dGet?, List.find?_cons]
  | cons p rest ih =>
    by_cases h : p.1 == k
    · simp [dSet, h, dGet?_cons]
    · simp [dSet, h, dGet?_cons, ih]

theorem dGet?_dDel_self (d : List (String × α)) (k : String) :
    dGet? (dDel d k) k = none := by
  induction d with
  | nil => rfl
  | cons p rest ih =>
    by_cases h : p.1 = k
    · simpa [dDel, List.filter_cons, bne_iff_ne, h] using ih
    · simpa [dDel, List.filter_cons, bne_iff_ne, h, dGet?_cons, beq_iff_eq] using ih

theorem mem_dSet {d : List (String × α)} {k : String} {v : α} {q : String × α}
    (h : q ∈ dSet d k v) : q ∈ d ∨ q = (k, v) := by
  induction d with
  | nil => simpa [dSet] using h
  | cons p rest ih =>
    by_cases hp : p.1 == k
    · simp only [dSet, hp, if_pos] at h
      rcases List.mem_cons.mp h with h | h
      · exact Or.inr h
      · exact Or.inl (List.mem_cons_of_mem _ h)
    · simp only [dSet, hp] at h
      rcases List.mem_cons.mp h with h | h
      · exact Or.inl (h ▸ List.mem_cons_self _ _)
      · rcases ih h with h | h
        · exact Or.inl (List.mem_cons_of_mem _ h)
        · exact Or.inr h

theorem mem_dDel {d : List (String × α)} {k : String} {q : String × α}
    (h : q ∈ dDel d k) : q ∈ d :=
  List.mem_of_mem_filter h

theorem listLead_iff (p s : List Char) : listLead p s = true ↔ ∃ t, s = p ++ t := by
  induction p generalizing s with
  | nil => simp [listLead]
  | cons a as ih =>
    cases s with
    | nil => simp [listLead]
    | cons b bs =>
      simp only [listLead, Bool.and_eq_true, beq_iff_eq, ih, List.cons_append,
        List.cons.injEq]
      constructor
      · rintro ⟨rfl, t, rfl⟩; exact ⟨t, rfl, rfl⟩
      · rintro ⟨t, rfl, rfl⟩; exact ⟨rfl, t, rfl⟩

theorem strBegins_iff (p s : String) : strBegins p s ↔ listLead p.data s.data = true := by
  rw [listLead_iff]
  constructor
  · rintro ⟨t, rfl⟩; exact ⟨t.data, by simp⟩
  · rintro ⟨t, h⟩
    exact ⟨⟨t⟩, String.ext (by simpa using h)⟩

theorem strBegins_append (p a b : String) (h : strBegins p a) : strBegins p (a ++ b) := by
  obtain ⟨t, rfl⟩ := h
  exact ⟨t ++ b, String.append_assoc p t b⟩

theorem imr_con (s : String) (h : listLead "CON ".data s.data = true) : isMenuResponse s :=
  Or.inl ((strBegins_iff _ _).mpr h)

theorem imr_end (s : String) (h : listLead "END ".data s.data = true) : isMenuResponse s :=
  Or.inr ((strBegins_iff _ _).mpr h)

theorem imr_append (s b : String) (h : isMenuResponse s) : isMenuResponse (s ++ b) :=
  h.elim (fun hl => Or.inl (strBegins_append _ _ _ hl))
    (fun hr => Or.inr (strBegins_append _ _ _ hr))

/-! ## Response well-formedness (claim C5) -/

theorem regflow_core_imr (session_id phone_number text : String) (ta : List String)
    (d : SessDict) (now : String) (st : KasaState) (r : String × KasaState)
    (h : handle_registration_flow_core session_id phone_number text ta d now st = .ok r) :
    isMenuResponse r.1 := by
  unfold handle_registration_flow_core at h
  dsimp only at h
  repeat' split at h
  all_goals (try cases h)
  all_goals (try simp only [USSDSession.get_registration_location_prompt,
    USSDSession.get_registration_confirmation, USSDSession.get_main_menu])
  all_goals (repeat apply imr_append)
  all_goals (first | exact imr_con _ (by decide) | exact imr_end _ (by decide))

theorem regflow_imr (session_id phone_number text : String) (ta : List String)
    (d : SessDict) (now : String) (st : KasaState) :
    isMenuResponse (handle_registration_flow session_id phone_number text ta d now st).1 := by
  unfold handle_registration_flow
  cases hc : handle_registration_flow_core session_id phone_number text ta d now st with
  | ok r => exact regflow_core_imr _ _ _ _ _ _ _ _ hc
  | error e =>
    show isMenuResponse "END Registration error. Please try again later."
    exact imr_end _ (by decide)

theorem ussd_core_imr (sessionId serviceCode phoneNumber text now : String)
    (smsOk : Bool) (st : KasaState) (r : String × KasaState)
    (h : ussd_handler_core sessionId serviceCode phoneNumber text now smsOk st = .ok r) :
    isMenuResponse r.1 := by
  unfold ussd_handler_core at h
  dsimp only at h
  repeat' split at h
  all_goals (try cases h)
  all_goals (try (exact regflow_imr _ _ _ _ _ _ _))
  all_goals (try simp only [USSDSession.get_main_menu, USSDSession.get_emergency_menu,
    USSDSession.get_confirmation_menu, USSDSession.get_help_menu,
    USSDSession.get_registration_name_prompt])
  all_goals (repeat apply imr_append)
  all_goals (first | exact imr_con _ (by decide) | exact imr_end _ (by decide))

/-- Claim C5: every string returned by the USSD handler, for every combination
of session state, navigation text and phone number, including all error paths,
begins with exactly the 4-character marker "CON " or the 4-character marker
"END ". -/
theorem c5_response_wellformed (sessionId serviceCode phoneNumber text now : String)
    (smsOk : Bool) (st : KasaState) :
    isMenuResponse (ussd_handler sessionId serviceCode phoneNumber text now smsOk st).1 := by
  unfold ussd_handler
  cases hc : ussd_handler_core sessionId serviceCode phoneNumber text now smsOk st with
  | ok r => exact ussd_core_imr _ _ _ _ _ _ _ _ hc
  | error e =>
    show isMenuResponse "END System error. Please try again later."
    exact imr_end _ (by decide)

/-! ## Concrete counterexample and defect evaluations (claims C1-C4, C7, C8) -/

/-- Claim C1 counterexample: with a phone already registered (as "Bob") at the
moment the confirmation step receives "1", the commit is not rejected — the
handler returns the success screen and the existing record is overwritten by
the wizard data ("Alice"/"Nairobi"). -/
theorem c1_counterexample :
    let st : KasaState :=
      ⟨[("s1", ⟨some "registration", some "confirmation", some "+254712888999",
          some "Alice", some "Nairobi"⟩)],
       [("+254712888999", ⟨"+254712888999", "Bob", "Kisumu", "2025-01-01T00:00:00"⟩)], []⟩
    let res := ussd_handler "s1" "*123#" "+254712888999" "1" "2025-02-02T00:00:00" true st
    res.1 = "END Registration successful!\nName: Alice\nLocation: Nairobi\nPhone: +254712888999\nYou can now receive location alerts!"
      ∧ dGet? res.2.users_db "+254712888999"
          = some ⟨"+254712888999", "Alice", "Nairobi", "2025-02-02T00:00:00"⟩ := by
  constructor <;> decide

/-- Claim C2 counterexample: with two users in "Westlands"/"westlands" and a
third elsewhere, an emergency confirmed by one of the two reports 2 local
users notified (the submitter is included), not the claimed 1. -/
theorem c2_counterexample :
    let st : KasaState :=
      ⟨[],
       [("+254712000001", ⟨"+254712000001", "Amina", "Westlands", "2025-01-01T00:00:00"⟩),
        ("+254712000002", ⟨"+254712000002", "Brian", "westlands", "2025-01-01T00:00:00"⟩),
        ("+254720000003", ⟨"+254720000003", "Carol", "Kilimani", "2025-01-01T00:00:00"⟩)],
       []⟩
    let res := ussd_handler "sess0001" "*123#" "+254712000001" "1*1*1" "t0" true st
    strContainsSub res.1 "✓ 2 local users notified" = true
      ∧ strContainsSub res.1 "✓ 1 local users notified" = false := by
  constructor <;> decide

/-- Claim C3 counterexample: the 2-segment text `4*0` (back from help), whose
first segment is not "1", returns the main-menu screen, not the generic
fallback terminal response the claim requires for every such text. -/
theorem c3_counterexample :
    let res := ussd_handler "s1" "*123#" "+254700000001" "4*0" "t0" true ⟨[], [], []⟩
    res.1 = USSDSession.get_main_menu
      ∧ res.1 ≠ "END Session ended. Dial again to restart." := by
  constructor <;> decide

/-- Claim C4 counterexample: the request `1*1*2` yields a terminal response
and leaves no session entry, yet repeating the identical request reproduces
the same cancellation screen, not the menu-root screen the claim demands. -/
theorem c4_counterexample :
    let res1 := ussd_handler "s1" "*123#" "+254700000001" "1*1*2" "t0" true ⟨[], [], []⟩
    let res2 := ussd_handler "s1" "*123#" "+254700000001" "1*1*2" "t0" true res1.2
    strBegins "END " res1.1
      ∧ dGet? res1.2.sessions "s1" = none
      ∧ res2.1 = "END Alert cancelled. Stay safe!"
      ∧ res2.1 ≠ USSDSession.get_main_menu := by
    refine ⟨⟨"Alert cancelled. Stay safe!", by decide⟩, by decide, by decide, by decide⟩

/-- Claim C7, evaluated at the failing input: two distinct sessions sharing
the 8-character prefix "ABCDEFGH" derive the same reference id
"EMR-ABCDEFGH"; the second confirmed report silently replaces the first
(the log still holds one entry, now the Medical report) — no uniqueness check
fires. -/
theorem c7_reference_collision_overwrites :
    (ussd_handler "ABCDEFGH-1" "*123#" "+254799111222" "1*1*1" "t1" true
        ⟨[], [], []⟩).2.emergency_reports.length = 1
      ∧ (dGet? (ussd_handler "ABCDEFGH-1" "*123#" "+254799111222" "1*1*1" "t1" true
            ⟨[], [], []⟩).2.emergency_reports "EMR-ABCDEFGH").map (·.emergency_type)
          = some "Fire Emergency"
      ∧ (ussd_handler "ABCDEFGH-2" "*123#" "+254799111222" "1*2*1" "t2" true
          (ussd_handler "ABCDEFGH-1" "*123#" "+254799111222" "1*1*1" "t1" true
            ⟨[], [], []⟩).2).2.emergency_reports.length = 1
      ∧ (dGet? (ussd_handler "ABCDEFGH-2" "*123#" "+254799111222" "1*2*1" "t2" true
          (ussd_handler "ABCDEFGH-1" "*123#" "+254799111222" "1*1*1" "t1" true
            ⟨[], [], []⟩).2).2.emergency_reports "EMR-ABCDEFGH").map (·.emergency_type)
          = some "Medical Emergency" := by
  refine ⟨by decide, by decide, by decide, by decide⟩

/-- Claim C8, evaluated at the failing input: with the gateway resending the
entire accumulated path, the wizard stores the raw path as the name
("2*Alice") and location ("2*Alice*Nairobi"), and the final request
`2*Alice*Nairobi*1` re-displays the confirmation instead of committing, so the
phone is never registered. -/
theorem c8_accumulated_path_wizard_stuck :
    (ussd_handler "sA" "*123#" "+254700555666" "2" "t0" true ⟨[], [], []⟩).1
        = "CON Enter your full name:"
      ∧ (ussd_handler "sA" "*123#" "+254700555666" "2*Alice" "t0" true
          (ussd_handler "sA" "*123#" "+254700555666" "2" "t0" true ⟨[], [], []⟩).2).1
        = "CON Hello 2*Alice!\nEnter your location/area:"
      ∧ (ussd_handler "sA" "*123#" "+254700555666" "2*Alice*Nairobi" "t0" true
          (ussd_handler "sA" "*123#" "+254700555666" "2*Alice" "t0" true
            (ussd_handler "sA" "*123#" "+254700555666" "2" "t0" true ⟨[], [], []⟩).2).2).1
        = "CON Confirm registration:\nName: 2*Alice\nLocation: 2*Alice*Nairobi\n1. Confirm\n2. Cancel\n0. Main Menu"
      ∧ (ussd_handler "sA" "*123#" "+254700555666" "2*Alice*Nairobi*1" "t0" true
          (ussd_handler "sA" "*123#" "+254700555666" "2*Alice*Nairobi" "t0" true
            (ussd_handler "sA" "*123#" "+254700555666" "2*Alice" "t0" true
              (ussd_handler "sA" "*123#" "+254700555666" "2" "t0" true ⟨[], [], []⟩).2).2).2).1
        = "CON Confirm registration:\nName: 2*Alice\nLocation: 2*Alice*Nairobi\n1. Confirm\n2. Cancel\n0. Main Menu"
      ∧ dGet? (ussd_handler "sA" "*123#" "+254700555666" "2*Alice*Nairobi*1" "t0" true
          (ussd_handler "sA" "*123#" "+254700555666" "2*Alice*Nairobi" "t0" true
            (ussd_handler "sA" "*123#" "+254700555666" "2*Alice" "t0" true
              (ussd_handler "sA" "*123#" "+254700555666" "2" "t0" true
                ⟨[], [], []⟩).2).2).2).2.users_db "+254700555666" = none := by
  refine ⟨by decide, by decide, by decide, by decide, by decide⟩

/-! ## Registration conflict handling (claim C1) -/

/-- Claim C1 (amended): the user registry is consulted only at wizard entry.
Selecting register ("2") with an already-registered phone is rejected with a
terminal screen showing the existing record and no state change; but when the
confirmation step receives input "1", the commit runs `register_user`
unconditionally, replacing any record that exists for the phone at that moment
and returning the success screen — there is no re-check at commit time. -/
theorem c1_entry_check_only :
    (∀ (sessionId serviceCode phoneNumber now : String) (smsOk : Bool)
        (st : KasaState) (u : User),
      ((dGet? st.sessions sessionId).getD {}).flow ≠ some "registration" →
      dGet? st.users_db phoneNumber = some u →
      ussd_handler sessionId serviceCode phoneNumber "2" now smsOk st =
        ("END You are already registered!\nName: " ++ u.name ++ "\nLocation: " ++ u.location
          ++ "\nRegistered: " ++ pySlice u.registration_date 10, st)) ∧
    (∀ (sessionId serviceCode phoneNumber now : String) (smsOk : Bool)
        (st : KasaState) (d : SessDict) (nm lc : String),
      dGet? st.sessions sessionId = some d →
      d.flow = some "registration" → d.step = some "confirmation" →
      d.name = some nm → d.location = some lc →
      ussd_handler sessionId serviceCode phoneNumber "1" now smsOk st =
        ("END Registration successful!\nName: " ++ nm ++ "\nLocation: " ++ lc
          ++ "\nPhone: " ++ phoneNumber ++ "\nYou can now receive location alerts!",
         ⟨dDel st.sessions sessionId, dSet st.users_db phoneNumber ⟨phoneNumber, nm, lc, now⟩,
          st.emergency_reports⟩)) := by
  constructor
  · intro sessionId serviceCode phoneNumber now smsOk st u hflow hu
    unfold ussd_handler ussd_handler_core get_user_by_phone
    dsimp only
    rw [if_neg hflow]
    have ht : (if ("2" : String) = "" then [""] else pySplit "2" '*') = ["2"] := by decide
    rw [ht, hu]
    simp
  · intro sessionId serviceCode phoneNumber now smsOk st d nm lc hd hflow hstep hn hl
    unfold ussd_handler ussd_handler_core
    dsimp only
    rw [hd]
    simp only [Option.getD_some, hflow, if_pos]
    unfold handle_registration_flow handle_registration_flow_core register_user
    dsimp only
    simp only [hstep, hn, hl]
    simp

/-- Witness for claim C1: both halves applied at concrete inputs. -/
theorem c1_witness :
    (ussd_handler "w1" "*123#" "+254701112223" "2" "tW" true
        ⟨[], [("+254701112223", ⟨"+254701112223", "Zoe", "Karen", "2025-03-03T10:00:00"⟩)], []⟩ =
      ("END You are already registered!\nName: " ++ "Zoe" ++ "\nLocation: " ++ "Karen"
        ++ "\nRegistered: " ++ pySlice "2025-03-03T10:00:00" 10,
       ⟨[], [("+254701112223", ⟨"+254701112223", "Zoe", "Karen", "2025-03-03T10:00:00"⟩)], []⟩))
    ∧ (ussd_handler "w2" "*123#" "+254702223334" "1" "tW" true
        ⟨[("w2", ⟨some "registration", some "confirmation", some "+254702223334",
            some "Ann", some "Kilifi"⟩)], [], []⟩ =
      ("END Registration successful!\nName: " ++ "Ann" ++ "\nLocation: " ++ "Kilifi"
        ++ "\nPhone: " ++ "+254702223334" ++ "\nYou can now receive location alerts!",
       ⟨dDel [("w2", ⟨some "registration", some "confirmation", some "+254702223334",
            some "Ann", some "Kilifi"⟩)] "w2",
        dSet [] "+254702223334" ⟨"+254702223334", "Ann", "Kilifi", "tW"⟩, []⟩)) :=
  ⟨c1_entry_check_only.1 "w1" "*123#" "+254701112223" "tW" true
     ⟨[], [("+254701112223", ⟨"+254701112223", "Zoe", "Karen", "2025-03-03T10:00:00"⟩)], []⟩
     ⟨"+254701112223", "Zoe", "Karen", "2025-03-03T10:00:00"⟩ (by decide) (by decide),
   c1_entry_check_only.2 "w2" "*123#" "+254702223334" "tW" true
     ⟨[("w2", ⟨some "registration", some "confirmation", some "+254702223334",
         some "Ann", some "Kilifi"⟩)], [], []⟩
     ⟨some "registration", some "confirmation", some "+254702223334",
       some "Ann", some "Kilifi"⟩ "Ann" "Kilifi" (by decide) rfl rfl rfl rfl⟩

/-! ## Non-emergency depth-2/3 dispatch (claim C3) -/

/-- Claim C3 (amended): with no active wizard flow, every navigation text of
2 or 3 segments whose first segment is not the emergency digit "1" falls
through to the generic fallback terminal response, with the user registry and
report log untouched — except the single help-back path `4*0`, which returns
the main-menu screen instead. -/
theorem c3_nonemergency_fallback (sessionId serviceCode phoneNumber text now : String)
    (smsOk : Bool) (st : KasaState) (a : String) (rest : List String)
    (hflow : ((dGet? st.sessions sessionId).getD {}).flow ≠ some "registration")
    (hsplit : (if text = "" then [""] else pySplit text '*') = a :: rest)
    (hlen : rest.length = 1 ∨ rest.length = 2)
    (ha : a ≠ "1")
    (h40 : a :: rest ≠ ["4", "0"]) :
    (ussd_handler sessionId serviceCode phoneNumber text now smsOk st).1
        = "END Session ended. Dial again to restart."
      ∧ (ussd_handler sessionId serviceCode phoneNumber text now smsOk st).2.users_db
          = st.users_db
      ∧ (ussd_handler sessionId serviceCode phoneNumber text now smsOk st).2.emergency_reports
          = st.emergency_reports := by
  have htext : text ≠ "" := by
    intro he
    subst he
    simp only [if_pos rfl] at hsplit
    cases hsplit
    simp at hlen
  have h0 : text ≠ "0" := by
    intro he
    subst he
    rw [if_neg (by decide), show pySplit "0" '*' = ["0"] from by decide] at hsplit
    cases hsplit
    simp at hlen
  unfold ussd_handler ussd_handler_core
  dsimp only
  rw [if_neg hflow, if_neg (not_or.mpr ⟨htext, h0⟩), hsplit]
  rcases hlen with h1 | h2
  · obtain ⟨b, rfl⟩ := List.length_eq_one.mp h1
    dsimp only
    rw [if_neg ha, if_neg (fun hc => h40 (by rw [hc.1, hc.2]))]
    exact ⟨rfl, rfl, rfl⟩
  · rcases rest with _ | ⟨b, _ | ⟨c, _ | ⟨e, rest3⟩⟩⟩ <;> simp at h2
    dsimp only
    rw [if_neg (fun hc => ha hc.1), if_neg (fun hc => ha hc.1), if_neg (fun hc => ha hc.1)]
    exact ⟨rfl, rfl, rfl⟩

/-- Witness for claim C3: text `2*5` from an empty store hits the fallback. -/
theorem c3_witness :
    (ussd_handler "w3" "*123#" "+254700000001" "2*5" "tW" true ⟨[], [], []⟩).1
        = "END Session ended. Dial again to restart."
      ∧ (ussd_handler "w3" "*123#" "+254700000001" "2*5" "tW" true ⟨[], [], []⟩).2.users_db
          = ([] : List (String × User))
      ∧ (ussd_handler "w3" "*123#" "+254700000001" "2*5" "tW" true
          ⟨[], [], []⟩).2.emergency_reports = ([] : List (String × EmergencyReport)) :=
  c3_nonemergency_fallback "w3" "*123#" "+254700000001" "2*5" "tW" true ⟨[], [], []⟩
    "2" ["5"] (by decide) (by decide) (Or.inl (by decide)) (by decide) (by decide)

/-! ## Idempotence after a cleared session (claim C4) -/

theorem c4_core_aux (sessionId serviceCode phoneNumber text now : String) (smsOk : Bool)
    (st1 : KasaState) (h : dGet? st1.sessions sessionId = none) :
    (ussd_handler_core sessionId serviceCode phoneNumber text now smsOk st1).map Prod.fst
      = (ussd_handler_core sessionId serviceCode phoneNumber text now smsOk
          ⟨[], st1.users_db, st1.emergency_reports⟩).map Prod.fst := by
  unfold ussd_handler_core
  dsimp only
  rw [h]
  simp only [dGet?_nil, Option.getD_none]
  repeat' split
  all_goals rfl

theorem c4_aux (sessionId serviceCode phoneNumber text now : String) (smsOk : Bool)
    (st1 : KasaState) (h : dGet? st1.sessions sessionId = none) :
    (ussd_handler sessionId serviceCode phoneNumber text now smsOk st1).1
      = (ussd_handler sessionId serviceCode phoneNumber text now smsOk
          ⟨[], st1.users_db, st1.emergency_reports⟩).1 := by
  have hm := c4_core_aux sessionId serviceCode phoneNumber text now smsOk st1 h
  unfold ussd_handler
  cases hc1 : ussd_handler_core sessionId serviceCode phoneNumber text now smsOk st1 with
  | ok r1 =>
    cases hc2 : ussd_handler_core sessionId serviceCode phoneNumber text now smsOk
        ⟨[], st1.users_db, st1.emergency_reports⟩ with
    | ok r2 =>
      rw [hc1, hc2] at hm
      simpa [Except.map] using hm
    | error e2 =>
      rw [hc1, hc2] at hm
      simp [Except.map] at hm
  | error e1 =>
    cases hc2 : ussd_handler_core sessionId serviceCode phoneNumber text now smsOk
        ⟨[], st1.users_db, st1.emergency_reports⟩ with
    | ok r2 =>
      rw [hc1, hc2] at hm
      simp [Except.map] at hm
    | error e2 => rfl

/-- Claim C4 (amended): after a call whose terminal response left no session
entry for the sessionId, repeating the exact same request is handled with no
session memory — the response is exactly what a fresh, empty session store
(with the same registry and report log) would produce.  That is the menu-root
screen only for the empty and "0" texts (which are never terminal); any other
text is re-dispatched through the stateless menu tree, never an error. -/
theorem c4_no_session_memory (sessionId serviceCode phoneNumber text now : String)
    (smsOk : Bool) (st : KasaState)
    (_hterm : strBegins "END "
      (ussd_handler sessionId serviceCode phoneNumber text now smsOk st).1)
    (hclear : dGet? (ussd_handler sessionId serviceCode phoneNumber text now smsOk st).2.sessions
        sessionId = none) :
    (ussd_handler sessionId serviceCode phoneNumber text now smsOk
        (ussd_handler sessionId serviceCode phoneNumber text now smsOk st).2).1
      = (ussd_handler sessionId serviceCode phoneNumber text now smsOk
          ⟨[], (ussd_handler sessionId serviceCode phoneNumber text now smsOk st).2.users_db,
           (ussd_handler sessionId serviceCode phoneNumber text now smsOk st).2.emergency_reports⟩).1 :=
  c4_aux sessionId serviceCode phoneNumber text now smsOk _ hclear

/-- Witness for claim C4: the cancelled-alert request `1*1*2` is terminal and
clears the session; repeating it behaves like a fresh session. -/
theorem c4_witness :
    (ussd_handler "w4" "*123#" "+254700000001" "1*1*2" "tW" true
        (ussd_handler "w4" "*123#" "+254700000001" "1*1*2" "tW" true ⟨[], [], []⟩).2).1
      = (ussd_handler "w4" "*123#" "+254700000001" "1*1*2" "tW" true
          ⟨[], (ussd_handler "w4" "*123#" "+254700000001" "1*1*2" "tW" true
              ⟨[], [], []⟩).2.users_db,
           (ussd_handler "w4" "*123#" "+254700000001" "1*1*2" "tW" true
              ⟨[], [], []⟩).2.emergency_reports⟩).1 :=
  c4_no_session_memory "w4" "*123#" "+254700000001" "1*1*2" "tW" true ⟨[], [], []⟩
    ⟨"Alert cancelled. Stay safe!", by decide⟩ (by decide)

/-! ## Emergency fan-out (claims C2 and C9) -/

theorem users_by_location_self_mem {users : List (String × User)} {ph : String} {u : User}
    (hu : dGet? users ph = some u) : u ∈ get_users_by_location u.location users := by
  have hfind : ∃ p, users.find? (fun p => p.1 == ph) = some p ∧ p.2 = u := by
    unfold dGet? at hu
    cases hf : users.find? (fun p => p.1 == ph) with
    | none => rw [hf] at hu; cases hu
    | some p => rw [hf] at hu; exact ⟨p, rfl, by simpa using hu⟩
  obtain ⟨p, hf, hp⟩ := hfind
  have hmem : p ∈ users := List.mem_of_find?_eq_some hf
  unfold get_users_by_location
  refine List.mem_map.mpr ⟨p, List.mem_filter.mpr ⟨hmem, ?_⟩, hp⟩
  rw [hp]
  exact beq_self_eq_true _

/-- Claim C2 (amended): when a registered user confirms an emergency
(text `1*1*1`) and the SMS gateway succeeds, the notification goes to every
registered user whose location matches the submitter's case-insensitively,
the submitter INCLUDED, and the count reported in the response text is the
number of all those users — so two users in "Westlands"/"westlands" plus one
elsewhere yield a report of 2 (not 1) local users notified. -/
theorem c2_fanout_includes_submitter (sessionId serviceCode phoneNumber now : String)
    (st : KasaState) (u : User)
    (hses : dGet? st.sessions sessionId = none)
    (hu : dGet? st.users_db phoneNumber = some u) :
    u ∈ get_users_by_location u.location st.users_db
      ∧ (ussd_handler sessionId serviceCode phoneNumber "1*1*1" now true st).1
        = "END " ++ "Fire Emergency" ++ " alert sent!\nReference: "
          ++ ("EMR-" ++ pySlice sessionId 8) ++ "\nLocation: "
          ++ format_location_for_sms (get_location_from_phone phoneNumber)
          ++ "\n✓ " ++ toString (get_users_by_location u.location st.users_db).length
          ++ " local users notified" ++ "\nStay safe!" := by
  have hmem := users_by_location_self_mem hu
  have hne : get_users_by_location u.location st.users_db ≠ [] :=
    List.ne_nil_of_mem hmem
  refine ⟨hmem, ?_⟩
  unfold ussd_handler ussd_handler_core get_user_by_phone send_alert_to_location
  dsimp only
  rw [hses]
  simp only [Option.getD_none]
  rw [if_neg (by decide), if_neg (by decide),
    show (if ("1*1*1" : String) = "" then [""] else pySplit "1*1*1" '*') = ["1", "1", "1"]
      from by decide]
  dsimp only
  rw [if_pos (by exact ⟨rfl, rfl⟩), hu]
  simp only [Option.map_some']
  rw [if_neg hne, show emergency_types "1" = some "Fire Emergency" from rfl]
  simp [List.length_map]

/-- Witness for claim C2: the two-Westlands-users scenario reports 2. -/
theorem c2_witness :
    (⟨"+254712000001", "Amina", "Westlands", "2025-01-01T00:00:00"⟩ : User)
        ∈ get_users_by_location "Westlands"
            [("+254712000001", ⟨"+254712000001", "Amina", "Westlands", "2025-01-01T00:00:00"⟩),
             ("+254712000002", ⟨"+254712000002", "Brian", "westlands", "2025-01-01T00:00:00"⟩),
             ("+254720000003", ⟨"+254720000003", "Carol", "Kilimani", "2025-01-01T00:00:00"⟩)]
      ∧ (ussd_handler "sw000001" "*123#" "+254712000001" "1*1*1" "tW" true
          ⟨[],
           [("+254712000001", ⟨"+254712000001", "Amina", "Westlands", "2025-01-01T00:00:00"⟩),
            ("+254712000002", ⟨"+254712000002", "Brian", "westlands", "2025-01-01T00:00:00"⟩),
            ("+254720000003", ⟨"+254720000003", "Carol", "Kilimani", "2025-01-01T00:00:00"⟩)],
           []⟩).1
        = "END " ++ "Fire Emergency" ++ " alert sent!\nReference: "
          ++ ("EMR-" ++ pySlice "sw000001" 8) ++ "\nLocation: "
          ++ format_location_for_sms (get_location_from_phone "+254712000001")
          ++ "\n✓ " ++ toString (get_users_by_location "Westlands"
              [("+254712000001", ⟨"+254712000001", "Amina", "Westlands", "2025-01-01T00:00:00"⟩),
               ("+254712000002", ⟨"+254712000002", "Brian", "westlands", "2025-01-01T00:00:00"⟩),
               ("+254720000003", ⟨"+254720000003", "Carol", "Kilimani", "2025-01-01T00:00:00"⟩)]).length
          ++ " local users notified" ++ "\nStay safe!" :=
  c2_fanout_includes_submitter "sw000001" "*123#" "+254712000001" "tW"
    ⟨[],
     [("+254712000001", ⟨"+254712000001", "Amina", "Westlands", "2025-01-01T00:00:00"⟩),
      ("+254712000002", ⟨"+254712000002", "Brian", "westlands", "2025-01-01T00:00:00"⟩),
      ("+254720000003", ⟨"+254720000003", "Carol", "Kilimani", "2025-01-01T00:00:00"⟩)],
     []⟩
    ⟨"+254712000001", "Amina", "Westlands", "2025-01-01T00:00:00"⟩ (by decide) (by decide)

/-- Claim C9: when a registered user confirms an emergency, a failed SMS
fan-out leaves the resulting state — in particular the stored report under its
reference id — identical to the successful case, and the handler still returns
a terminal acknowledgement embedding the emergency type and the reference id;
the only difference in the response text is the missing notified-count line. -/
theorem c9_fanout_failure_isolated (sessionId serviceCode phoneNumber now : String)
    (st : KasaState) (u : User)
    (hses : dGet? st.sessions sessionId = none)
    (hu : dGet? st.users_db phoneNumber = some u) :
    (ussd_handler sessionId serviceCode phoneNumber "1*1*1" now false st).2
        = (ussd_handler sessionId serviceCode phoneNumber "1*1*1" now true st).2
      ∧ dGet? (ussd_handler sessionId serviceCode phoneNumber "1*1*1" now false st).2.emergency_reports
            ("EMR-" ++ pySlice sessionId 8)
          = some ⟨sessionId, phoneNumber, "Fire Emergency", now,
              get_location_from_phone phoneNumber, "EMR-" ++ pySlice sessionId 8, "pending"⟩
      ∧ (ussd_handler sessionId serviceCode phoneNumber "1*1*1" now true st).1
          = "END " ++ "Fire Emergency" ++ " alert sent!\nReference: "
            ++ ("EMR-" ++ pySlice sessionId 8) ++ "\nLocation: "
            ++ format_location_for_sms (get_location_from_phone phoneNumber)
            ++ "\n✓ " ++ toString (get_users_by_location u.location st.users_db).length
            ++ " local users notified" ++ "\nStay safe!"
      ∧ (ussd_handler sessionId serviceCode phoneNumber "1*1*1" now false st).1
          = "END " ++ "Fire Emergency" ++ " alert sent!\nReference: "
            ++ ("EMR-" ++ pySlice sessionId 8) ++ "\nLocation: "
            ++ format_location_for_sms (get_location_from_phone phoneNumber)
            ++ "\nStay safe!" := by
  have hne : get_users_by_location u.location st.users_db ≠ [] :=
    List.ne_nil_of_mem (users_by_location_self_mem hu)
  have ht : ussd_handler sessionId serviceCode phoneNumber "1*1*1" now true st
      = ("END " ++ "Fire Emergency" ++ " alert sent!\nReference: "
            ++ ("EMR-" ++ pySlice sessionId 8) ++ "\nLocation: "
            ++ format_location_for_sms (get_location_from_phone phoneNumber)
            ++ "\n✓ " ++ toString (get_users_by_location u.location st.users_db).length
            ++ " local users notified" ++ "\nStay safe!",
         ⟨dDel st.sessions sessionId, st.users_db,
          dSet st.emergency_reports ("EMR-" ++ pySlice sessionId 8)
            ⟨sessionId, phoneNumber, "Fire Emergency", now, get_location_from_phone phoneNumber,
             "EMR-" ++ pySlice sessionId 8, "pending"⟩⟩) := by
    unfold ussd_handler ussd_handler_core get_user_by_phone send_alert_to_location
    dsimp only
    rw [hses]
    simp only [Option.getD_none]
    rw [if_neg (by decide), if_neg (by decide),
      show (if ("1*1*1" : String) = "" then [""] else pySplit "1*1*1" '*') = ["1", "1", "1"]
        from by decide]
    dsimp only
    rw [if_pos (by exact ⟨rfl, rfl⟩), hu]
    simp only [Option.map_some']
    rw [if_neg hne, show emergency_types "1" = some "Fire Emergency" from rfl]
    simp [List.length_map]
  have hf : ussd_handler sessionId serviceCode phoneNumber "1*1*1" now false st
      = ("END " ++ "Fire Emergency" ++ " alert sent!\nReference: "
            ++ ("EMR-" ++ pySlice sessionId 8) ++ "\nLocation: "
            ++ format_location_for_sms (get_location_from_phone phoneNumber)
            ++ "\nStay safe!",
         ⟨dDel st.sessions sessionId, st.users_db,
          dSet st.emergency_reports ("EMR-" ++ pySlice sessionId 8)
            ⟨sessionId, phoneNumber, "Fire Emergency", now, get_location_from_phone phoneNumber,
             "EMR-" ++ pySlice sessionId 8, "pending"⟩⟩) := by
    unfold ussd_handler ussd_handler_core get_user_by_phone send_alert_to_location
    dsimp only
    rw [hses]
    simp only [Option.getD_none]
    rw [if_neg (by decide), if_neg (by decide),
      show (if ("1*1*1" : String) = "" then [""] else pySplit "1*1*1" '*') = ["1", "1", "1"]
        from by decide]
    dsimp only
    rw [if_pos (by exact ⟨rfl, rfl⟩), hu]
    simp only [Option.map_some']
    rw [if_neg hne, show emergency_types "1" = some "Fire Emergency" from rfl]
    simp [List.length_map]
  refine ⟨?_, ?_, ?_, ?_⟩
  · rw [ht, hf]
  · rw [hf]
    exact dGet?_dSet_self _ _ _
  · rw [ht]
  · rw [hf]

/-- Witness for claim C9: gateway failure in the Westlands scenario. -/
theorem c9_witness :
    (ussd_handler "sw000002" "*123#" "+254712000001" "1*1*1" "tW" false
        ⟨[],
         [("+254712000001", ⟨"+254712000001", "Amina", "Westlands", "2025-01-01T00:00:00"⟩),
          ("+254712000002", ⟨"+254712000002", "Brian", "westlands", "2025-01-01T00:00:00"⟩)],
         []⟩).2
      = (ussd_handler "sw000002" "*123#" "+254712000001" "1*1*1" "tW" true
          ⟨[],
           [("+254712000001", ⟨"+254712000001", "Amina", "Westlands", "2025-01-01T00:00:00"⟩),
            ("+254712000002", ⟨"+254712000002", "Brian", "westlands", "2025-01-01T00:00:00"⟩)],
           []⟩).2
    ∧ dGet? (ussd_handler "sw000002" "*123#" "+254712000001" "1*1*1" "tW" false
          ⟨[],
           [("+254712000001", ⟨"+254712000001", "Amina", "Westlands", "2025-01-01T00:00:00"⟩),
            ("+254712000002", ⟨"+254712000002", "Brian", "westlands", "2025-01-01T00:00:00"⟩)],
           []⟩).2.emergency_reports ("EMR-" ++ pySlice "sw000002" 8)
        = some ⟨"sw000002", "+254712000001", "Fire Emergency", "tW",
            get_location_from_phone "+254712000001", "EMR-" ++ pySlice "sw000002" 8, "pending"⟩
    ∧ (ussd_handler "sw000002" "*123#" "+254712000001" "1*1*1" "tW" true
          ⟨[],
           [("+254712000001", ⟨"+254712000001", "Amina", "Westlands", "2025-01-01T00:00:00"⟩),
            ("+254712000002", ⟨"+254712000002", "Brian", "westlands", "2025-01-01T00:00:00"⟩)],
           []⟩).1
        = "END " ++ "Fire Emergency" ++ " alert sent!\nReference: "
          ++ ("EMR-" ++ pySlice "sw000002" 8) ++ "\nLocation: "
          ++ format_location_for_sms (get_location_from_phone "+254712000001")
          ++ "\n✓ " ++ toString (get_users_by_location "Westlands"
              [("+254712000001", ⟨"+254712000001", "Amina", "Westlands", "2025-01-01T00:00:00"⟩),
               ("+254712000002", ⟨"+254712000002", "Brian", "westlands", "2025-01-01T00:00:00"⟩)]).length
          ++ " local users notified" ++ "\nStay safe!"
    ∧ (ussd_handler "sw000002" "*123#" "+254712000001" "1*1*1" "tW" false
          ⟨[],
           [("+254712000001", ⟨"+254712000001", "Amina", "Westlands", "2025-01-01T00:00:00"⟩),
            ("+254712000002", ⟨"+254712000002", "Brian", "westlands", "2025-01-01T00:00:00"⟩)],
           []⟩).1
        = "END " ++ "Fire Emergency" ++ " alert sent!\nReference: "
          ++ ("EMR-" ++ pySlice "sw000002" 8) ++ "\nLocation: "
          ++ format_location_for_sms (get_location_from_phone "+254712000001")
          ++ "\nStay safe!" :=
  c9_fanout_failure_isolated "sw000002" "*123#" "+254712000001" "tW"
    ⟨[],
     [("+254712000001", ⟨"+254712000001", "Amina", "Westlands", "2025-01-01T00:00:00"⟩),
      ("+254712000002", ⟨"+254712000002", "Brian", "westlands", "2025-01-01T00:00:00"⟩)],
     []⟩
    ⟨"+254712000001", "Amina", "Westlands", "2025-01-01T00:00:00"⟩ (by decide) (by decide)

/-! ## Failure degradation (claim C6) -/

/-- Claim C6: internal failures never propagate.  Any exception raised inside
the registration wizard body is caught by its handler, which returns the
terminal "END Registration error. Please try again later." screen and
force-clears the session; in particular, reaching the confirmation commit with
the name or location missing (where `register_user` would raise a pydantic
`ValidationError`) yields that terminal response through the full USSD handler
and removes the session entry. -/
theorem c6_failure_degrades :
    (∀ (session_id phone_number text : String) (ta : List String) (d : SessDict)
        (now : String) (st : KasaState) (e : Unit),
      handle_registration_flow_core session_id phone_number text ta d now st = .error e →
      handle_registration_flow session_id phone_number text ta d now st =
        ("END Registration error. Please try again later.",
          { st with sessions := dDel st.sessions session_id })) ∧
    (∀ (sessionId serviceCode phoneNumber now : String) (smsOk : Bool) (st : KasaState)
        (d : SessDict),
      dGet? st.sessions sessionId = some d →
      d.flow = some "registration" → d.step = some "confirmation" →
      (d.name = none ∨ d.location = none) →
      (ussd_handler sessionId serviceCode phoneNumber "1" now smsOk st).1
          = "END Registration error. Please try again later."
        ∧ dGet? (ussd_handler sessionId serviceCode phoneNumber "1" now smsOk st).2.sessions
            sessionId = none) := by
  constructor
  · intro session_id phone_number text ta d now st e h
    unfold handle_registration_flow
    rw [h]
  · intro sessionId serviceCode phoneNumber now smsOk st d hd hflow hstep hmiss
    unfold ussd_handler ussd_handler_core
    dsimp only
    rw [hd]
    simp only [Option.getD_some, hflow, if_pos]
    unfold handle_registration_flow handle_registration_flow_core
    dsimp only
    simp only [hstep]
    rcases hn : d.name with _ | nm <;> rcases hl : d.location with _ | lc
    · simp [dGet?_dDel_self]
    · simp [dGet?_dDel_self]
    · simp [dGet?_dDel_self]
    · exfalso
      rcases hmiss with hm | hm
      · rw [hn] at hm; cases hm
      · rw [hl] at hm; cases hm

/-- Witness for claim C6: a confirmation commit with no captured name. -/
theorem c6_witness :
    (handle_registration_flow "w6" "+254700000009" "1" ["1"]
        ⟨some "registration", some "confirmation", some "+254700000009", none, some "Nairobi"⟩
        "tW" ⟨[], [], []⟩ =
      ("END Registration error. Please try again later.",
        { sessions := dDel ([] : List (String × SessDict)) "w6", users_db := [],
          emergency_reports := [] }))
    ∧ ((ussd_handler "w6" "*123#" "+254700000009" "1" "tW" true
          ⟨[("w6", ⟨some "registration", some "confirmation", some "+254700000009",
              none, some "Nairobi"⟩)], [], []⟩).1
        = "END Registration error. Please try again later."
      ∧ dGet? (ussd_handler "w6" "*123#" "+254700000009" "1" "tW" true
          ⟨[("w6", ⟨some "registration", some "confirmation", some "+254700000009",
              none, some "Nairobi"⟩)], [], []⟩).2.sessions "w6" = none) :=
  ⟨c6_failure_degrades.1 "w6" "+254700000009" "1" ["1"]
     ⟨some "registration", some "confirmation", some "+254700000009", none, some "Nairobi"⟩
     "tW" ⟨[], [], []⟩ () rfl,
   c6_failure_degrades.2 "w6" "*123#" "+254700000009" "tW" true
     ⟨[("w6", ⟨some "registration", some "confirmation", some "+254700000009",
         none, some "Nairobi"⟩)], [], []⟩
     ⟨some "registration", some "confirmation", some "+254700000009", none, some "Nairobi"⟩
     (by decide) rfl rfl (Or.inl rfl)⟩

/-! ## Session store shape invariant (claim C10) -/

theorem dGet?_some_mem {d : List (String × α)} {k : String} {v : α}
    (h : dGet? d k = some v) : (k, v) ∈ d := by
  unfold dGet? at h
  cases hf : d.find? (fun p => p.1 == k) with
  | none => rw [hf] at h; cases h
  | some p =>
    rw [hf] at h
    have hk : p.1 = k := by simpa using List.find?_some hf
    have hv : p.2 = v := by simpa using h
    have : p = (k, v) := by
      cases p; simp_all
    exact this ▸ List.mem_of_find?_eq_some hf

theorem sessions_inv_update2 (sessions : List (String × SessDict)) (sid : String)
    (d : SessDict) (k1 : SessKey) (v1 v2 : String)
    (hd : dGet? sessions sid = some d)
    (hinv : ∀ p ∈ sessions, sessOK p.2)
    (h1 : sessOK (d.set k1 v1)) (h2 : sessOK ((d.set k1 v1).set .step v2)) :
    ∀ p ∈ update_session (update_session sessions sid k1 v1) sid .step v2, sessOK p.2 := by
  intro p hp
  unfold update_session at hp
  rw [hd] at hp
  simp only [Option.getD_some] at hp
  rw [dGet?_dSet_self] at hp
  simp only [Option.getD_some] at hp
  rcases mem_dSet hp with hp1 | rfl
  · rcases mem_dSet hp1 with hp2 | rfl
    · exact hinv p hp2
    · exact h1
  · exact h2

theorem regflow_core_sessions_inv (session_id phone_number text : String)
    (ta : List String) (d : SessDict) (now : String) (st : KasaState)
    (r : String × KasaState)
    (h : handle_registration_flow_core session_id phone_number text ta d now st = .ok r)
    (hd : dGet? st.sessions session_id = some d) (hdOK : sessOK d)
    (hinv : ∀ p ∈ st.sessions, sessOK p.2) :
    ∀ p ∈ r.2.sessions, sessOK p.2 := by
  unfold handle_registration_flow_core at h
  dsimp only at h
  repeat' split at h
  all_goals (try cases h)
  all_goals (try (intro p hp; exact hinv p hp))
  all_goals (try (intro p hp; exact hinv p (mem_dDel hp)))
  · exact sessions_inv_update2 st.sessions session_id d .name (pyStrip text) "location" hd hinv
      ⟨by simp [SessDict.set, hdOK.1], by simpa [SessDict.set] using hdOK.2⟩
      ⟨by simp [SessDict.set, hdOK.1], by simp [SessDict.set]⟩
  · exact sessions_inv_update2 st.sessions session_id d .location (pyStrip text) "confirmation"
      hd hinv
      ⟨by simp [SessDict.set, hdOK.1], by simpa [SessDict.set] using hdOK.2⟩
      ⟨by simp [SessDict.set, hdOK.1], by simp [SessDict.set]⟩

theorem regflow_sessions_inv (session_id phone_number text : String)
    (ta : List String) (d : SessDict) (now : String) (st : KasaState)
    (hd : dGet? st.sessions session_id = some d) (hdOK : sessOK d)
    (hinv : ∀ p ∈ st.sessions, sessOK p.2) :
    ∀ p ∈ (handle_registration_flow session_id phone_number text ta d now st).2.sessions,
      sessOK p.2 := by
  unfold handle_registration_flow
  cases hc : handle_registration_flow_core session_id phone_number text ta d now st with
  | ok r => exact regflow_core_sessions_inv _ _ _ _ _ _ _ _ hc hd hdOK hinv
  | error e =>
    intro p hp
    exact hinv p (mem_dDel hp)

theorem ussd_core_sessions_inv (sessionId serviceCode phoneNumber text now : String)
    (smsOk : Bool) (st : KasaState) (r : String × KasaState)
    (h : ussd_handler_core sessionId serviceCode phoneNumber text now smsOk st = .ok r)
    (hinv : ∀ p ∈ st.sessions, sessOK p.2) :
    ∀ p ∈ r.2.sessions, sessOK p.2 := by
  unfold ussd_handler_core at h
  dsimp only at h
  repeat' split at h
  all_goals (try cases h)
  all_goals (try (intro p hp; exact hinv p hp))
  all_goals (try (intro p hp; exact hinv p (mem_dDel hp)))
  all_goals
    (try (cases hget : dGet? st.sessions sessionId with
      | none => simp_all
      | some dd =>
        simp only [Option.getD_some]
        exact regflow_sessions_inv _ _ _ _ _ _ _ hget
          (hinv (sessionId, dd) (dGet?_some_mem hget)) hinv))
  all_goals intro p hp
  all_goals (rcases mem_dSet hp with hp1 | rfl)
  · exact hinv p hp1
  · exact ⟨rfl, Or.inl rfl⟩

theorem ussd_core_creation (sessionId serviceCode phoneNumber text now : String)
    (smsOk : Bool) (st : KasaState) (r : String × KasaState)
    (h : ussd_handler_core sessionId serviceCode phoneNumber text now smsOk st = .ok r)
    (hnone : dGet? st.sessions sessionId = none) :
    ∀ d, dGet? r.2.sessions sessionId = some d →
      text = "2" ∧ dGet? st.users_db phoneNumber = none
        ∧ d = ⟨some "registration", some "name", some phoneNumber, none, none⟩ := by
  unfold ussd_handler_core at h
  rw [hnone] at h
  simp only [Option.getD_none] at h
  rw [if_neg (by simp [SessDict.flow])] at h
  repeat' split at h
  all_goals (try cases h)
  all_goals intro d hd
  all_goals (try (rw [hnone] at hd; cases hd))
  all_goals (try (rw [dGet?_dDel_self] at hd; cases hd))
  all_goals (rw [dGet?_dSet_self] at hd)
  all_goals (cases hd)
  refine ⟨by assumption, ?_, rfl⟩
  assumption

/-- Claim C10: whenever every entry of the session store has the registration
shape (flow "registration", step among name/location/confirmation), the store
after any completed handler call still does; and an entry for a previously
absent sessionId can appear only when an unregistered phone selects the
register option "2", in which case the new entry is exactly the initial
registration dict. -/
theorem c10_session_shape_invariant (sessionId serviceCode phoneNumber text now : String)
    (smsOk : Bool) (st : KasaState)
    (hinv : ∀ p ∈ st.sessions, sessOK p.2) :
    (∀ p ∈ (ussd_handler sessionId serviceCode phoneNumber text now smsOk st).2.sessions,
        sessOK p.2)
      ∧ (dGet? st.sessions sessionId = none →
          ∀ d, dGet? (ussd_handler sessionId serviceCode phoneNumber text now smsOk st).2.sessions
              sessionId = some d →
            text = "2" ∧ dGet? st.users_db phoneNumber = none
              ∧ d = ⟨some "registration", some "name", some phoneNumber, none, none⟩) := by
  unfold ussd_handler
  cases hc : ussd_handler_core sessionId serviceCode phoneNumber text now smsOk st with
  | ok r =>
    exact ⟨ussd_core_sessions_inv _ _ _ _ _ _ _ _ hc hinv,
      fun hnone => ussd_core_creation _ _ _ _ _ _ _ _ hc hnone⟩
  | error e =>
    constructor
    · intro p hp
      exact hinv p (mem_dDel hp)
    · intro hnone d hd
      rw [dGet?_dDel_self] at hd
      cases hd

/-- Witness for claim C10: an unregistered phone selecting register from an
empty store creates exactly the initial registration entry. -/
theorem c10_witness :
    (∀ p ∈ (ussd_handler "w10" "*123#" "+254703334445" "2" "tW" true
        ⟨[], [], []⟩).2.sessions, sessOK p.2)
      ∧ (dGet? ([] : List (String × SessDict)) "w10" = none →
          ∀ d, dGet? (ussd_handler "w10" "*123#" "+254703334445" "2" "tW" true
              ⟨[], [], []⟩).2.sessions "w10" = some d →
            ("2" : String) = "2" ∧ dGet? ([] : List (String × User)) "+254703334445" = none
              ∧ d = ⟨some "registration", some "name", some "+254703334445", none, none⟩) :=
  c10_session_shape_invariant "w10" "*123#" "+254703334445" "2" "tW" true ⟨[], [], []⟩
    (by simp)
